import Mathlib

/-!
# Verification of the webpanelstore job dispatch and execution engine

This file embeds the core of the provisioning platform — the job signing
and verification codec (`panel/app.py` `JobManager.create_job`,
`agent/daemon.py` `JobExecutor.validate_signature`), the manifest-driven
input validators of both the control plane (`panel/app.py`
`InputValidator`) and the agent (`agent/daemon.py`
`JobExecutor.validate_inputs`), the environment construction
(`JobExecutor.prepare_environment`), and the agent's job execution flow
(`JobExecutor.execute_script` / `execute_job`) — as executable Lean
definitions, and proves the specified properties about them.

Machine integers are modelled as `Nat` with explicit reduction modulo
`2 ^ 32` where the SHA-256 compression function overflows.  Byte strings
are lists of `Nat` below 256.  Effects (filesystem, process launch,
signals) are modelled by explicit world records and event traces.
-/

namespace WebPanel

/-! ## 32-bit words as `Nat` reduced mod `2 ^ 32` -/

def MOD32 : Nat := 4294967296

def add32 (a b : Nat) : Nat := (a + b) % MOD32

def xor32 (a b : Nat) : Nat := Nat.xor a b

def and32 (a b : Nat) : Nat := Nat.land a b

def not32 (a : Nat) : Nat := Nat.xor a 4294967295

def rotr32 (n a : Nat) : Nat := ((a >>> n) ||| (a <<< (32 - n))) % MOD32

def shr32 (n a : Nat) : Nat := a >>> n

/-! ## SHA-256 (FIPS 180-4), bytes in, 32 digest bytes out -/

def sha256K : List Nat :=
  [1116352408, 1899447441, 3049323471, 3921009573, 961987163, 1508970993,
   2453635748, 2870763221, 3624381080, 310598401, 607225278, 1426881987,
   1925078388, 2162078206, 2614888103, 3248222580, 3835390401, 4022224774,
   264347078, 604807628, 770255983, 1249150122, 1555081692, 1996064986,
   2554220882, 2821834349, 2952996808, 3210313671, 3336571891, 3584528711,
   113926993, 338241895, 666307205, 773529912, 1294757372, 1396182291,
   1695183700, 1986661051, 2177026350, 2456956037, 2730485921, 2820302411,
   3259730800, 3345764771, 3516065817, 3600352804, 4094571909, 275423344,
   430227734, 506948616, 659060556, 883997877, 958139571, 1322822218,
   1537002063, 1747873779, 1955562222, 2024104815, 2227730452, 2361852424,
   2428436474, 2756734187, 3204031479, 3329325298]

def sha256InitH : List Nat :=
  [1779033703, 3144134277, 1013904242, 2773480762,
   1359893119, 2600822924, 528734635, 1541459225]

/-- Big-endian 8-byte encoding of a natural number (bit length field). -/
def be64 (n : Nat) : List Nat :=
  [(n >>> 56) % 256, (n >>> 48) % 256, (n >>> 40) % 256, (n >>> 32) % 256,
   (n >>> 24) % 256, (n >>> 16) % 256, (n >>> 8) % 256, n % 256]

/-- SHA-256 padding: append 0x80, zero bytes to 56 mod 64, then the
bit length as 8 big-endian bytes. -/
def sha256Pad (msg : List Nat) : List Nat :=
  let len := msg.length
  let padLen := (119 - len % 64) % 64
  msg ++ 0x80 :: List.replicate padLen 0 ++ be64 (8 * len)

/-- Group bytes into big-endian 32-bit words. -/
def bytesToWords : List Nat → List Nat
  | a :: b :: c :: d :: rest => (((a * 256 + b) * 256 + c) * 256 + d) :: bytesToWords rest
  | _ => []

def smallSigma0 (x : Nat) : Nat := xor32 (rotr32 7 x) (xor32 (rotr32 18 x) (shr32 3 x))

def smallSigma1 (x : Nat) : Nat := xor32 (rotr32 17 x) (xor32 (rotr32 19 x) (shr32 10 x))

def bigSigma0 (x : Nat) : Nat := xor32 (rotr32 2 x) (xor32 (rotr32 13 x) (rotr32 22 x))

def bigSigma1 (x : Nat) : Nat := xor32 (rotr32 6 x) (xor32 (rotr32 11 x) (rotr32 25 x))

/-- One step of the message schedule, over the reversed prefix of W. -/
def schedStep (rev : List Nat) : Nat :=
  add32 (add32 (smallSigma1 (rev.getD 1 0)) (rev.getD 6 0))
        (add32 (smallSigma0 (rev.getD 14 0)) (rev.getD 15 0))

/-- Extend the 16 block words to the 64 schedule words (reversed order). -/
def extendW : Nat → List Nat → List Nat
  | 0, rev => rev
  | n + 1, rev => extendW n (schedStep rev :: rev)

/-- One compression round; the state is the 8-word list [a,b,c,d,e,f,g,h]. -/
def sha256Round (st : List Nat) (kw : Nat × Nat) : List Nat :=
  match st with
  | [a, b, c, d, e, f, g, h] =>
    let s1 := bigSigma1 e
    let ch := xor32 (and32 e f) (and32 (not32 e) g)
    let t1 := add32 h (add32 s1 (add32 ch (add32 kw.1 kw.2)))
    let s0 := bigSigma0 a
    let maj := xor32 (and32 a b) (xor32 (and32 a c) (and32 b c))
    let t2 := add32 s0 maj
    [add32 t1 t2, a, b, c, add32 d t1, e, f, g]
  | other => other

/-- Compress one 16-word block into the running hash. -/
def sha256Compress (h : List Nat) (block : List Nat) : List Nat :=
  let w := (extendW 48 block.reverse).reverse
  let st := List.foldl sha256Round h (sha256K.zip w)
  List.zipWith add32 h st

/-- Fold the compression over all 16-word blocks (fuel-driven so that the
kernel can evaluate it). -/
def sha256Blocks : Nat → List Nat → List Nat → List Nat
  | 0, h, _ => h
  | _ + 1, h, [] => h
  | fuel + 1, h, ws => sha256Blocks fuel (sha256Compress h (ws.take 16)) (ws.drop 16)

/-- Big-endian bytes of one 32-bit word. -/
def wordBytes (w : Nat) : List Nat :=
  [(w >>> 24) % 256, (w >>> 16) % 256, (w >>> 8) % 256, w % 256]

/-- SHA-256 of a byte list, as its 32 digest bytes. -/
def sha256 (msg : List Nat) : List Nat :=
  let ws := bytesToWords (sha256Pad msg)
  let h := sha256Blocks ws.length sha256InitH ws
  h.flatMap wordBytes

/-! ## HMAC-SHA256 (RFC 2104) and lowercase hex rendering -/

def hmacSha256 (key msg : List Nat) : List Nat :=
  let k0 := if 64 < key.length then sha256 key else key
  let kp := k0 ++ List.replicate (64 - k0.length) 0
  let ipad := kp.map (fun b => Nat.xor b 0x36)
  let opad := kp.map (fun b => Nat.xor b 0x5c)
  sha256 (opad ++ sha256 (ipad ++ msg))

def hexDigit (n : Nat) : Char :=
  if n < 10 then Char.ofNat (48 + n) else Char.ofNat (87 + n)

/-- Lowercase hex string of a byte list (Python `.hexdigest()`). -/
def toHexStr (bs : List Nat) : String :=
  String.mk (bs.flatMap (fun b => [hexDigit (b / 16), hexDigit (b % 16)]))

/-- UTF-8 bytes of an ASCII string (all strings signed by the system are
ASCII, since `json.dumps` escapes non-ASCII by default). -/
def strBytes (s : String) : List Nat := s.data.map Char.toNat

/-! ## Canonical JSON serialization (`json.dumps(job_copy, sort_keys=True)`)

The control plane (`JobManager.create_job`) and the agent
(`JobExecutor.validate_signature`) both serialize the job dict minus its
`signature` key with `json.dumps(..., sort_keys=True)`: keys in code-point
order, separators `", "` and `": "`, `ensure_ascii` escaping. -/

/-- Four lowercase hex digits of a code unit (for `\uXXXX` escapes). -/
def hex4 (n : Nat) : List Char :=
  [hexDigit (n / 4096 % 16), hexDigit (n / 256 % 16), hexDigit (n / 16 % 16), hexDigit (n % 16)]

/-- Escaping by `json.dumps` of one character (default `ensure_ascii=True`):
short escapes for the two-character forms, `\uXXXX` for other control and
non-ASCII characters, surrogate pairs above the BMP. -/
def escapeChar (c : Char) : List Char :=
  let n := c.toNat
  if c = '"' then ['\\', '"']
  else if c = '\\' then ['\\', '\\']
  else if c = '\n' then ['\\', 'n']
  else if c = '\r' then ['\\', 'r']
  else if c = '\t' then ['\\', 't']
  else if n = 8 then ['\\', 'b']
  else if n = 12 then ['\\', 'f']
  else if n < 32 then '\\' :: 'u' :: hex4 n
  else if n < 127 then [c]
  else if n < 65536 then '\\' :: 'u' :: hex4 n
  else
    let m := n - 65536
    '\\' :: 'u' :: hex4 (55296 + m / 1024) ++ '\\' :: 'u' :: hex4 (56320 + m % 1024)

/-- A JSON string literal: quoted, characters escaped. -/
def jsonQuote (s : String) : String :=
  String.mk ('"' :: s.data.flatMap escapeChar ++ ['"'])

/-- Code-point lexicographic order on strings (Python `str` comparison,
used by `sort_keys=True`). -/
def lexLe : List Char → List Char → Bool
  | [], _ => true
  | _ :: _, [] => false
  | a :: as, b :: bs =>
    if a.toNat < b.toNat then true
    else if b.toNat < a.toNat then false
    else lexLe as bs

def keyLe (a b : String) : Bool := lexLe a.data b.data

def insertByKey (p : String × String) : List (String × String) → List (String × String)
  | [] => [p]
  | q :: rest => if keyLe p.1 q.1 then p :: q :: rest else q :: insertByKey p rest

/-- Sort a string-keyed association list by key (insertion sort). -/
def sortByKey : List (String × String) → List (String × String)
  | [] => []
  | p :: rest => insertByKey p (sortByKey rest)

/-- One `"key": "value"` entry of a JSON object. -/
def dictEntry (kv : String × String) : String :=
  jsonQuote kv.1 ++ ": " ++ jsonQuote kv.2

/-- Serialization (`json.dumps`) of a string-to-string dict with sorted keys. -/
def inputsJson (ins : List (String × String)) : String :=
  "\x7b" ++ String.intercalate ", " ((sortByKey ins).map dictEntry) ++ "\x7d"

/-! ## The job record and the signing codec -/

/-- The job wire shape built by `JobManager.create_job` and checked by
`JobExecutor.validate_signature` (`shared/schema.py` `JobConfig` plus
`created_at`/`status`). `inputs` is the string-to-string dict. -/
structure Job where
  job_id : String
  app_id : String
  inputs : List (String × String)
  server_id : String
  user_id : String
  created_at : String
  status : String
  signature : String
deriving DecidableEq, Repr

/-- Model of `json.dumps(job_copy,
sort_keys=True)`: the seven non-signature keys in their sorted order. -/
def canonicalPayload (j : Job) : String :=
  "\x7b\"app_id\": " ++ jsonQuote j.app_id ++
  ", \"created_at\": " ++ jsonQuote j.created_at ++
  ", \"inputs\": " ++ inputsJson j.inputs ++
  ", \"job_id\": " ++ jsonQuote j.job_id ++
  ", \"server_id\": " ++ jsonQuote j.server_id ++
  ", \"status\": " ++ jsonQuote j.status ++
  ", \"user_id\": " ++ jsonQuote j.user_id ++ "\x7d"

/-- Model of `hmac.new(SECRET_KEY.encode(), payload, hashlib.sha256).hexdigest()`
over the canonical payload of the job's non-signature fields. -/
def signJob (secret : String) (j : Job) : String :=
  toHexStr (hmacSha256 (strBytes secret) (strBytes (canonicalPayload j)))

/-- Model of `JobExecutor.validate_signature`: recompute the digest from the
non-signature fields and compare with the received `signature`
(`hmac.compare_digest` returns true exactly on equal strings). -/
def validateSignature (secret : String) (j : Job) : Bool :=
  j.signature == signJob secret j

/-- Model of `JobManager.create_job`: build the job record (status `queued`), sign
its non-signature fields, attach the signature. -/
def createJob (secret : String) (appId : String) (inputs : List (String × String))
    (serverId userId createdAt jobId : String) : Job :=
  let j : Job :=
    { job_id := jobId, app_id := appId, inputs := inputs, server_id := serverId,
      user_id := userId, created_at := createdAt, status := "queued", signature := "" }
  { j with signature := signJob secret j }

/-! ## Python numeric parsing

`int(value)` and `float(value)` on strings: surrounding whitespace is
stripped, an optional sign precedes the body.  (Numeric-literal
underscores and non-ASCII digits, which CPython also accepts, are outside
the modelled domain — no manifest or claim uses them.) -/

def isSpaceChar (c : Char) : Bool :=
  c = ' ' ∨ c = '\t' ∨ c = '\n' ∨ c = '\r' ∨ c = '\x0b' ∨ c = '\x0c'

/-- Python `str.strip()` of both ends, as a character list. -/
def pyStrip (s : String) : List Char :=
  ((s.data.dropWhile isSpaceChar).reverse.dropWhile isSpaceChar).reverse

def isDigitChar (c : Char) : Bool := 48 ≤ c.toNat ∧ c.toNat ≤ 57

def digitsVal (cs : List Char) : Nat :=
  cs.foldl (fun a c => a * 10 + (c.toNat - 48)) 0

/-- A non-empty all-digit run, or failure. -/
def parseDigits (cs : List Char) : Option Nat :=
  if cs ≠ [] ∧ cs.all isDigitChar then some (digitsVal cs) else none

/-- Python `int(value)` for a string argument. -/
def parseInt (s : String) : Option Int :=
  match pyStrip s with
  | '+' :: ds => (parseDigits ds).map Int.ofNat
  | '-' :: ds => (parseDigits ds).map (fun n => -(n : Int))
  | ds => (parseDigits ds).map Int.ofNat

/-- The value space of Python `float(...)`, exact: `nan`, signed
infinities, or a finite value kept as a rational (the claims checked here
depend on which strings parse, not on IEEE rounding). -/
inductive PyFloat where
  | nan
  | inf (neg : Bool)
  | num (q : Rat)
deriving DecidableEq, Repr

/-- Split a character list at the first occurrence of `c`. -/
def splitOnChar (c : Char) : List Char → List Char × Option (List Char)
  | [] => ([], none)
  | x :: xs =>
    if x = c then ([], some xs)
    else
      let r := splitOnChar c xs
      (x :: r.1, r.2)

/-- Optional sign followed by digits (a float exponent). -/
def parseSignedDigits (cs : List Char) : Option Int :=
  match cs with
  | '+' :: ds => (parseDigits ds).map Int.ofNat
  | '-' :: ds => (parseDigits ds).map (fun n => -(n : Int))
  | ds => (parseDigits ds).map Int.ofNat

/-- Decimal float body: `digits[.digits][e[sign]digits]` with at least one
mantissa digit ("1.", ".5", "2e3" all parse, as in CPython). -/
def parseDecimalBody (neg : Bool) (cs : List Char) : Option PyFloat :=
  let (mant, expPart) := splitOnChar 'e' cs
  let expVal : Option Int :=
    match expPart with
    | none => some 0
    | some ecs => parseSignedDigits ecs
  match expVal with
  | none => none
  | some e =>
    let (ip, fpOpt) := splitOnChar '.' mant
    let fp := fpOpt.getD []
    if (ip ++ fp) ≠ [] ∧ (ip ++ fp).all isDigitChar then
      let m : Nat := digitsVal (ip ++ fp)
      let mag : Rat := (m : Rat) / (10 : Rat) ^ fp.length * (10 : Rat) ^ e
      some (.num (if neg then -mag else mag))
    else none

def parseFloatBody (neg : Bool) (cs : List Char) : Option PyFloat :=
  if cs = "inf".data ∨ cs = "infinity".data then some (.inf neg)
  else if cs = "nan".data then some .nan
  else parseDecimalBody neg cs

/-- Python `float(value)` for a string argument (value kept exact). -/
def parseFloat (s : String) : Option PyFloat :=
  let t := (pyStrip s).map Char.toLower
  match t with
  | '+' :: rest => parseFloatBody false rest
  | '-' :: rest => parseFloatBody true rest
  | rest => parseFloatBody false rest

/-- Comparison `float(value) < bound` (nan compares false; infinities as usual). -/
def pyLt (x : PyFloat) (r : Rat) : Bool :=
  match x with
  | .nan => false
  | .inf neg => neg
  | .num q => q < r

/-- Comparison `float(value) > bound`. -/
def pyGt (x : PyFloat) (r : Rat) : Bool :=
  match x with
  | .nan => false
  | .inf neg => !neg
  | .num q => r < q

/-! ## The manifest input schema (`shared/schema.py`) -/

/-- Schema `InputValidation`: the optional constraint block of a field.  Numeric
bounds are exact rationals (YAML numbers). -/
structure InputValidation where
  pattern : Option String := none
  min_length : Option Nat := none
  max_length : Option Nat := none
  min_value : Option Rat := none
  max_value : Option Rat := none
  allowed_values : Option (List String) := none
deriving DecidableEq, Repr

/-- Schema `InputField`: one declared manifest parameter.  `type` is one of the
closed set string/integer/boolean/password/select/email/port; a missing
`validation` block behaves as the empty one (`field.get('validation', {})`). -/
structure InputField where
  name : String
  type : String
  label : String
  required : Bool := true
  validation : InputValidation := {}
  visible_if : Option (List (String × String)) := none
deriving DecidableEq, Repr

/-! ## Control-plane validator (`panel/app.py` `InputValidator`)

Regular-expression matching (`re.match(pattern, value)` truthiness) is
delegated to CPython's `re` engine; it enters the embedding as the
function parameter `reMatch : pattern → value → Bool`.  Every theorem
below holds for every such function, and witnesses instantiate it
concretely. -/

/-- The email pattern literal of `validate_field`. -/
def emailPattern : String := "^[a-zA-Z0-9._%+-]+@[a-zA-Z0-9.-]+\\.[a-zA-Z]\x7b2,\x7d$"

def lowerStr (s : String) : String := String.mk (s.data.map Char.toLower)

def upperStr (s : String) : String := String.mk (s.data.map Char.toUpper)

/-- The type-specific check block of `validate_field` (integer, port,
email, boolean; other types have no type check). -/
def typeCheck (reMatch : String → String → Bool) (f : InputField) (v : String) : Option String :=
  if f.type = "integer" then
    match parseInt v with
    | none => some (f.label ++ " must be an integer")
    | some _ => none
  else if f.type = "port" then
    match parseInt v with
    | none => some (f.label ++ " must be a valid port number")
    | some n => if ¬(1 ≤ n ∧ n ≤ 65535) then some (f.label ++ " must be between 1 and 65535") else none
  else if f.type = "email" then
    if ¬ reMatch emailPattern v then some (f.label ++ " must be a valid email") else none
  else if f.type = "boolean" then
    if ¬ (lowerStr v ∈ ["true", "false", "1", "0", "yes", "no"]) then
      some (f.label ++ " must be true or false")
    else none
  else none

def patternCheck (reMatch : String → String → Bool) (f : InputField) (v : String) : Option String :=
  match f.validation.pattern with
  | some p => if ¬ reMatch p v then some (f.label ++ " format is invalid") else none
  | none => none

def minLengthCheck (f : InputField) (v : String) : Option String :=
  match f.validation.min_length with
  | some n => if v.length < n then some (f.label ++ " must be at least " ++ toString n ++ " characters") else none
  | none => none

def maxLengthCheck (f : InputField) (v : String) : Option String :=
  match f.validation.max_length with
  | some n => if n < v.length then some (f.label ++ " must be at most " ++ toString n ++ " characters") else none
  | none => none

/-- Check of `min_value`: `try: if float(value) < bound: error / except ValueError:
pass` — a value that does not parse as a float contributes no error. -/
def minValueCheck (f : InputField) (v : String) : Option String :=
  match f.validation.min_value with
  | some r =>
    match parseFloat v with
    | some x => if pyLt x r then some (f.label ++ " must be at least " ++ toString r) else none
    | none => none
  | none => none

def maxValueCheck (f : InputField) (v : String) : Option String :=
  match f.validation.max_value with
  | some r =>
    match parseFloat v with
    | some x => if pyGt x r then some (f.label ++ " must be at most " ++ toString r) else none
    | none => none
  | none => none

def allowedValuesCheck (f : InputField) (v : String) : Option String :=
  match f.validation.allowed_values with
  | some vs => if ¬ (v ∈ vs) then some (f.label ++ " must be one of: " ++ String.intercalate ", " vs) else none
  | none => none

/-- The checks of `validate_field` after the empty-value gate, in source
order.  The function body is a chain of early `return`s, so its result is
the first check that fails. -/
def fieldChecks (reMatch : String → String → Bool) (f : InputField) (v : String) : List (Option String) :=
  [typeCheck reMatch f v, patternCheck reMatch f v, minLengthCheck f v, maxLengthCheck f v,
   minValueCheck f v, maxValueCheck f v, allowedValuesCheck f v]

def firstSome : List (Option String) → Option String
  | [] => none
  | some e :: _ => some e
  | none :: rest => firstSome rest

/-- The error produced by `InputValidator.validate_field`, if any: a
required empty value errors, any other empty value is accepted outright,
otherwise the first failing check in source order errors. -/
def fieldError (reMatch : String → String → Bool) (f : InputField) (v : String) : Option String :=
  if v = "" then
    if f.required then some (f.label ++ " is required") else none
  else firstSome (fieldChecks reMatch f v)

/-- Model of `InputValidator.validate_field`: `(True, None)` or `(False, message)`. -/
def validateField (reMatch : String → String → Bool) (f : InputField) (v : String) :
    Bool × Option String :=
  match fieldError reMatch f v with
  | some e => (false, some e)
  | none => (true, none)

/-- Evaluation of `visible_if` in `validate_inputs`: all referenced fields
must currently hold exactly the expected value (`inputs.get(k) == v`; a
missing key compares unequal). -/
def visibleIfMet (inputs : List (String × String)) (f : InputField) : Bool :=
  match f.visible_if with
  | none => true
  | some conds => conds.all (fun kv => inputs.lookup kv.1 == some kv.2)

/-- The error accumulation loop of `InputValidator.validate_inputs`:
fields whose `visible_if` is unmet are skipped, every other field is
validated on its supplied value (default `''`), and each failing field
appends its message. -/
def collectErrors (reMatch : String → String → Bool) (inputs : List (String × String)) :
    List InputField → List String
  | [] => []
  | f :: rest =>
    (if visibleIfMet inputs f then (fieldError reMatch f ((inputs.lookup f.name).getD "")).toList
     else []) ++ collectErrors reMatch inputs rest

/-- Model of `InputValidator.validate_inputs`: `(len(errors) == 0, errors)`. -/
def validateInputs (reMatch : String → String → Bool) (fields : List InputField)
    (inputs : List (String × String)) : Bool × List String :=
  let errs := collectErrors reMatch inputs fields
  (errs.isEmpty, errs)

/-! ## Agent-side validator (`agent/daemon.py` `JobExecutor.validate_inputs`)

A separate, simpler implementation: membership-based required check, the
integer/port type checks, pattern and length rules — no email/boolean
checks, no numeric bounds, no allowed-values rule, no `visible_if`
handling, no empty-value shortcut — and it returns at the first error
across all fields. -/

def agentTypeCheck (f : InputField) (v : String) : Option String :=
  if f.type = "integer" then
    match parseInt v with
    | none => some ("Invalid integer: " ++ f.name)
    | some _ => none
  else if f.type = "port" then
    match parseInt v with
    | none => some ("Invalid port: " ++ f.name)
    | some n => if ¬(1 ≤ n ∧ n ≤ 65535) then some ("Port out of range: " ++ f.name) else none
  else none

def agentPatternCheck (reMatch : String → String → Bool) (f : InputField) (v : String) : Option String :=
  match f.validation.pattern with
  | some p => if ¬ reMatch p v then some ("Pattern mismatch: " ++ f.name) else none
  | none => none

def agentMinLengthCheck (f : InputField) (v : String) : Option String :=
  match f.validation.min_length with
  | some n => if v.length < n then some ("Value too short: " ++ f.name) else none
  | none => none

def agentMaxLengthCheck (f : InputField) (v : String) : Option String :=
  match f.validation.max_length with
  | some n => if n < v.length then some ("Value too long: " ++ f.name) else none
  | none => none

/-- The agent's per-field outcome: required-and-missing errors; a present
value runs the type, pattern and length checks in source order. -/
def agentFieldError (reMatch : String → String → Bool) (f : InputField)
    (inputs : List (String × String)) : Option String :=
  if f.required ∧ inputs.lookup f.name = none then some ("Required field missing: " ++ f.name)
  else
    match inputs.lookup f.name with
    | none => none
    | some v =>
      firstSome [agentTypeCheck f v, agentPatternCheck reMatch f v,
                 agentMinLengthCheck f v, agentMaxLengthCheck f v]

/-- Model of `JobExecutor.validate_inputs`: walks the manifest fields and `return`s
`(False, message)` at the first error, `(True, None)` otherwise. -/
def agentValidateInputs (reMatch : String → String → Bool) (fields : List InputField)
    (inputs : List (String × String)) : Bool × Option String :=
  match fields with
  | [] => (true, none)
  | f :: rest =>
    match agentFieldError reMatch f inputs with
    | some e => (false, some e)
    | none => agentValidateInputs reMatch rest inputs

/-! ## Environment construction (`JobExecutor.prepare_environment`) -/

/-- A process environment: variable name to value. -/
def Env : Type := String → Option String

def envSet (e : Env) (k v : String) : Env :=
  fun q => if q = k then some v else e q

/-- Model of `prepare_environment`: start from a copy of the agent process's own
environment (`os.environ.copy()`), bind each supplied input's upper-cased
name to its value, then the two fixed metadata variables.  The `manifest`
argument is accepted and unused, as in the source. -/
def prepareEnvironment (baseEnv : Env) (inputs : List (String × String))
    (manifest : List InputField) : Env :=
  let e := inputs.foldl (fun e kv => envSet e (upperStr kv.1) kv.2) baseEnv
  envSet (envSet e "PROVISIONING_JOB" "true") "DEBIAN_FRONTEND" "noninteractive"

/-! ## Execution sandbox and job flow (`execute_script` / `execute_job`)

Process behaviour is a world parameter: the launched installer either
exits with a code (its interleaved output read back from the log file),
runs past the timeout, or the launch machinery raises.  Signals sent to
the process group and the grace-period sleep are recorded as events. -/

inductive Sig where
  | term
  | kill
deriving DecidableEq, Repr

inductive Event where
  | killProcessGroup (s : Sig)
  | sleepSeconds (n : Nat)
deriving DecidableEq, Repr

inductive ProcOutcome where
  | exits (code : Int) (log : String)
  | timesOut
  | raises (msg : String)
deriving DecidableEq, Repr

structure ScriptWorld where
  scriptExists : Bool
  outcome : ProcOutcome
deriving DecidableEq, Repr

/-- Model of `JobExecutor.execute_script`: missing script is `(1, message)`; a
completed wait returns the exit code and the captured log; a
`TimeoutExpired` wait sends SIGTERM to the process group, sleeps the 5 s
grace period, sends SIGKILL, and returns the distinguished code 124; any
exception from the launch machinery is caught into `(1, str(e))`. -/
def executeScript (appId scriptName : String) (env : Env) (timeout : Nat) (jobId : String)
    (w : ScriptWorld) : (Int × String) × List Event :=
  if ¬ w.scriptExists then
    ((1, "Script not found: /opt/provisioning/installers/" ++ appId ++ "/" ++ scriptName), [])
  else
    match w.outcome with
    | .exits code log => ((code, log), [])
    | .timesOut =>
      ((124, "Execution timed out"),
       [.killProcessGroup .term, .sleepSeconds 5, .killProcessGroup .kill])
    | .raises msg => ((1, msg), [])

/-- The manifest keys `execute_job` reads (`manifest.get(...)` defaults:
timeout 600, script `install.sh`). -/
structure Manifest where
  inputs : List InputField := []
  timeout_seconds : Option Nat := none
  install_script : Option String := none
deriving Repr

/-- The agent-side world of one `execute_job` call: whether
`<installers>/<app_id>/manifest.yml` exists (the whitelist), what loading
it yields (`open`/`yaml.safe_load` may raise), and the script world. -/
structure JobWorld where
  whitelisted : Bool
  manifestResult : Except String Manifest
  script : ScriptWorld

/-- The result record built by `execute_job` (`completed_at` is filled in
the `finally` block, so it is `none` only inside the flow). -/
structure JobResult where
  job_id : String
  status : String
  exit_code : Int
  output : String
  started_at : String
  completed_at : Option String
  error : Option String
deriving DecidableEq, Repr

/-- Model of `JobExecutor.execute_job`: signature check, whitelist check, manifest
load, input validation — each failure keeps the initial `status='failed'`,
sets a descriptive error and returns without touching the sandbox — then
environment build, script execution and exit-code mapping (`0` to
`success`, anything else to `failed`).  Besides the result record the
model returns whether `execute_script` was invoked and the event trace. -/
def executeJob (secret : String) (reMatch : String → String → Bool) (baseEnv : Env)
    (startedAt completedAt : String) (w : JobWorld) (job : Job) :
    JobResult × Bool × List Event :=
  let base : JobResult :=
    { job_id := job.job_id, status := "failed", exit_code := 1, output := "",
      started_at := startedAt, completed_at := none, error := none }
  let body : JobResult × Bool × List Event :=
    if ¬ validateSignature secret job then
      ({ base with error := some "Invalid signature" }, false, [])
    else if ¬ w.whitelisted then
      ({ base with error := some ("Installer not whitelisted: " ++ job.app_id) }, false, [])
    else
      match w.manifestResult with
      | .error e => ({ base with error := some e }, false, [])
      | .ok manifest =>
        match agentValidateInputs reMatch manifest.inputs job.inputs with
        | (false, err) =>
          ({ base with error := some ("Input validation failed: " ++ err.getD "None") }, false, [])
        | (true, _) =>
          let env := prepareEnvironment baseEnv job.inputs manifest.inputs
          let timeout := manifest.timeout_seconds.getD 600
          let scriptName := manifest.install_script.getD "install.sh"
          let r := executeScript job.app_id scriptName env timeout job.job_id w.script
          let exitCode := r.1.1
          ({ base with
              exit_code := exitCode, output := r.1.2,
              status := if exitCode = 0 then "success" else "failed",
              error := if exitCode ≠ 0 then some ("Script exited with code " ++ toString exitCode) else none },
            true, r.2)
  ({ body.1 with completed_at := some completedAt }, body.2)

/-! ## Concrete fixtures used by witnesses and counterexamples -/

/-- A concrete stand-in for the `re` engine (any function works; the
universal theorems quantify over it). -/
def reM0 : String → String → Bool := fun _ _ => true

def emptyEnv : Env := fun _ => none

/-- A base environment holding one inherited agent-process variable. -/
def envWithSecret : Env := fun n => if n = "SECRET_KEY" then some "hunter2" else none

def cJob : Job :=
  { job_id := "job-1", app_id := "nginx",
    inputs := [("server_name", "example.com")],
    server_id := "agent-001", user_id := "admin",
    created_at := "2024-01-01T00:00:00", status := "queued", signature := "" }

def cJobInput : Job := { cJob with inputs := [("server_name", "example.org")] }

def cJobServer : Job := { cJob with server_id := "agent-002" }

def cJobUser : Job := { cJob with user_id := "alice" }

/-- A correctly signed concrete job, as the control plane would queue it. -/
def cJobSigned : Job :=
  createJob "test-secret" "nginx" [] "agent-001" "admin" "t0" "j1"

/-- The `enable_ssl` / `ssl_port` field pair of the conditional-visibility
scenario (`tests/test_platform.py` `test_visible_if_condition`). -/
def sslBoolField : InputField :=
  { name := "enable_ssl", type := "boolean", label := "Enable SSL", required := false }

def sslPortField : InputField :=
  { name := "ssl_port", type := "port", label := "SSL Port", required := true,
    visible_if := some [("enable_ssl", "true")] }

def sslFields : List InputField := [sslBoolField, sslPortField]

/-- A required port field with no further rules. -/
def portField : InputField := { name := "p", type := "port", label := "P" }

/-- A port field that also declares a minimum length: the value `"0"`
violates both the range check and the length check. -/
def c3Field : InputField :=
  { name := "p", type := "port", label := "P", validation := { min_length := some 3 } }

def reqA : InputField := { name := "a", type := "string", label := "A" }

def reqB : InputField := { name := "b", type := "string", label := "B" }

/-- A string field with a numeric lower bound and an allowed-values set. -/
def f8 : InputField :=
  { name := "m", type := "string", label := "M",
    validation := { min_value := some 1, allowed_values := some ["abc"] } }

/-- An optional port field with a length rule, for the empty-value
shortcut. -/
def f10 : InputField :=
  { name := "opt", type := "port", label := "O", required := false,
    validation := { min_length := some 5 } }

def okWorld : JobWorld :=
  { whitelisted := true, manifestResult := .ok {},
    script := { scriptExists := true, outcome := .exits 0 "done" } }

def notWhitelistedWorld : JobWorld := { okWorld with whitelisted := false }

def missingInputWorld : JobWorld := { okWorld with manifestResult := .ok { inputs := [reqA] } }

def timeoutWorld : JobWorld :=
  { okWorld with script := { scriptExists := true, outcome := .timesOut } }

/-! ## Helper lemmas (shared) -/

theorem collectErrors_append (reMatch : String → String → Bool)
    (inputs : List (String × String)) (as bs : List InputField) :
    collectErrors reMatch inputs (as ++ bs)
      = collectErrors reMatch inputs as ++ collectErrors reMatch inputs bs := by
  induction as with
  | nil => rfl
  | cons f rest ih => simp [collectErrors, ih]

theorem agentFieldError_visible_if (reMatch : String → String → Bool) (f : InputField)
    (w : Option (List (String × String))) (inputs : List (String × String)) :
    agentFieldError reMatch { f with visible_if := w } inputs = agentFieldError reMatch f inputs := rfl

theorem envSet_self (e : Env) (k v : String) : envSet e k v k = some v := by
  simp [envSet]

theorem envSet_ne (e : Env) (k v q : String) (h : q ≠ k) : envSet e k v q = e q := by
  simp [envSet, h]

theorem foldlEnv_notin (inputs : List (String × String)) (e : Env) (name : String)
    (h : ∀ kv ∈ inputs, upperStr kv.1 ≠ name) :
    inputs.foldl (fun e kv => envSet e (upperStr kv.1) kv.2) e name = e name := by
  induction inputs generalizing e with
  | nil => rfl
  | cons kv rest ih =>
    have hkv : upperStr kv.1 ≠ name := h kv (by simp)
    have hrest : ∀ p ∈ rest, upperStr p.1 ≠ name := fun p hp => h p (by simp [hp])
    rw [List.foldl_cons, ih _ hrest]
    unfold envSet
    rw [if_neg (fun hn => hkv hn.symm)]

theorem validateField_true_iff (reMatch : String → String → Bool) (f : InputField) (v : String) :
    (validateField reMatch f v).1 = true ↔ fieldError reMatch f v = none := by
  cases h : fieldError reMatch f v <;> simp [validateField, h]

theorem minValueCheck_skip (f : InputField) (v : String) (h : parseFloat v = none) :
    minValueCheck f v = none := by
  unfold minValueCheck
  cases f.validation.min_value with
  | none => rfl
  | some r => rw [h]

theorem maxValueCheck_skip (f : InputField) (v : String) (h : parseFloat v = none) :
    maxValueCheck f v = none := by
  unfold maxValueCheck
  cases f.validation.max_value with
  | none => rfl
  | some r => rw [h]

/-! ## The claims -/

set_option maxHeartbeats 4000000 in
set_option maxRecDepth 10000 in
/-- Claim C1: signing is deterministic (the signature is a function of the
non-signature fields alone); a job whose signature field was produced by
signing its other fields verifies as true (both for an arbitrary job and
for `create_job`'s output); changing a non-signature field — one input
value, `server_id`, or `user_id`, at the cited concrete job — changes the
signature and makes verification of the mutated job fail; and verifying
with a different secret fails (at the concrete job; the two sensitivity
properties are collision statements about HMAC-SHA256, checked here by
computing the digests). -/
theorem C1_signature_scheme :
    (∀ secret (j : Job) (s : String), signJob secret { j with signature := s } = signJob secret j)
    ∧ (∀ secret (j : Job), validateSignature secret { j with signature := signJob secret j } = true)
    ∧ (∀ secret appId inputs serverId userId createdAt jobId,
        validateSignature secret (createJob secret appId inputs serverId userId createdAt jobId) = true)
    ∧ (signJob "test-secret" cJob ≠ signJob "test-secret" cJobInput
       ∧ validateSignature "test-secret" { cJobInput with signature := signJob "test-secret" cJob } = false)
    ∧ (signJob "test-secret" cJob ≠ signJob "test-secret" cJobServer
       ∧ validateSignature "test-secret" { cJobServer with signature := signJob "test-secret" cJob } = false)
    ∧ (signJob "test-secret" cJob ≠ signJob "test-secret" cJobUser
       ∧ validateSignature "test-secret" { cJobUser with signature := signJob "test-secret" cJob } = false)
    ∧ validateSignature "other-secret" { cJob with signature := signJob "test-secret" cJob } = false := by
  refine ⟨fun _ _ _ => rfl, fun secret j => ?_, fun secret a i sv u c jo => ?_, ?_, ?_, ?_, ?_⟩
  · exact beq_self_eq_true (signJob secret j)
  · exact beq_self_eq_true (signJob secret
      { job_id := jo, app_id := a, inputs := i, server_id := sv, user_id := u,
        created_at := c, status := "queued", signature := "" })
  · exact ⟨by decide, by decide⟩
  · exact ⟨by decide, by decide⟩
  · exact ⟨by decide, by decide⟩
  · decide

/-- Claim C2 (amended): when the installer runs past its timeout, the
sandbox sends SIGTERM to the process group, sleeps the 5-second grace
period, sends SIGKILL, and returns the distinguished exit code 124; the
job's result record then carries exit_code 124 with error text naming
code 124 — but its status is "failed", not "timeout": `execute_job` maps
every nonzero exit code to "failed", so the only wire statuses produced
are success and failed. -/
theorem C2_timeout_escalation :
    ∀ secret reMatch baseEnv startedAt completedAt (w : JobWorld) (job : Job) (m : Manifest),
      validateSignature secret job = true →
      w.whitelisted = true →
      w.manifestResult = Except.ok m →
      agentValidateInputs reMatch m.inputs job.inputs = (true, none) →
      w.script.scriptExists = true →
      w.script.outcome = ProcOutcome.timesOut →
      (executeJob secret reMatch baseEnv startedAt completedAt w job).1.exit_code = 124
      ∧ (executeJob secret reMatch baseEnv startedAt completedAt w job).1.status = "failed"
      ∧ (executeJob secret reMatch baseEnv startedAt completedAt w job).1.error
          = some "Script exited with code 124"
      ∧ (executeJob secret reMatch baseEnv startedAt completedAt w job).2.2
          = [Event.killProcessGroup Sig.term, Event.sleepSeconds 5, Event.killProcessGroup Sig.kill] := by
  intro secret reM baseEnv s c w job m h1 h2 h3 h4 h5 h6
  simp [executeJob, executeScript, h1, h2, h3, h4, h5, h6]
  decide

set_option maxHeartbeats 4000000 in
set_option maxRecDepth 10000 in
/-- Claim C2 (witness): the amended behaviour at a concrete signed job
whose installer times out. -/
theorem C2_timeout_escalation_witness :
    (executeJob "test-secret" reM0 emptyEnv "t0" "t1" timeoutWorld cJobSigned).1.exit_code = 124
    ∧ (executeJob "test-secret" reM0 emptyEnv "t0" "t1" timeoutWorld cJobSigned).1.status = "failed"
    ∧ (executeJob "test-secret" reM0 emptyEnv "t0" "t1" timeoutWorld cJobSigned).1.error
        = some "Script exited with code 124"
    ∧ (executeJob "test-secret" reM0 emptyEnv "t0" "t1" timeoutWorld cJobSigned).2.2
        = [Event.killProcessGroup Sig.term, Event.sleepSeconds 5, Event.killProcessGroup Sig.kill] :=
  C2_timeout_escalation "test-secret" reM0 emptyEnv "t0" "t1" timeoutWorld cJobSigned {}
    (by decide) rfl rfl rfl rfl rfl

set_option maxHeartbeats 4000000 in
set_option maxRecDepth 10000 in
/-- Claim C2 (counterexample): at that same concrete timed-out job the
escalation and exit code 124 are observed, yet the published result's
status is "failed" — not "timeout" as the claim states. -/
theorem C2_status_counterexample :
    (executeJob "test-secret" reM0 emptyEnv "t0" "t1" timeoutWorld cJobSigned).1.exit_code = 124
    ∧ (executeJob "test-secret" reM0 emptyEnv "t0" "t1" timeoutWorld cJobSigned).1.status = "failed"
    ∧ (executeJob "test-secret" reM0 emptyEnv "t0" "t1" timeoutWorld cJobSigned).1.status ≠ "timeout" := by
  refine ⟨by decide, by decide, by decide⟩

/-- Claim C3 (amended): the control-plane validator reports exactly one
error per failing visible field — its first failing check, not one
message per violated constraint — and it examines every field, so the
error count equals the number of visible failing fields; the agent
validator instead returns at the first error across all fields. -/
theorem C3_error_collection :
    (∀ reMatch fields inputs,
      ((validateInputs reMatch fields inputs).2).length
        = (fields.filter (fun f =>
            visibleIfMet inputs f
              && (fieldError reMatch f ((inputs.lookup f.name).getD "")).isSome)).length)
    ∧ (∀ reMatch (f : InputField) rest inputs e,
        agentFieldError reMatch f inputs = some e →
        agentValidateInputs reMatch (f :: rest) inputs = (false, some e)) := by
  constructor
  · intro reM fields inputs
    show (collectErrors reM inputs fields).length = _
    induction fields with
    | nil => rfl
    | cons f rest ih =>
      cases hv : visibleIfMet inputs f
      · simp [collectErrors, hv, List.filter_cons, ih]
      · cases hf : fieldError reM f ((inputs.lookup f.name).getD "") <;>
          simp [collectErrors, hv, hf, List.filter_cons, ih]
  · intro reM f rest inputs e h
    unfold agentValidateInputs
    rw [h]

/-- Claim C3 (counterexample): the value "0" on a port field with a
minimum length violates two constraints, yet the control-plane validator
reports a single message (the first failing check); and with two missing
required fields the agent validator reports only the first. -/
theorem C3_counterexample :
    ((fieldChecks reM0 c3Field "0").filterMap id).length = 2
    ∧ (validateInputs reM0 [c3Field] [("p", "0")]).2 = ["P must be between 1 and 65535"]
    ∧ agentValidateInputs reM0 [reqA, reqB] [] = (false, some "Required field missing: a") := by
  decide

/-- Claim C3 (witness): the amended behaviour at concrete inputs — the
agent stops at the first missing field, and the panel error count equals
the number of failing fields. -/
theorem C3_error_collection_witness :
    agentValidateInputs reM0 (reqA :: [reqB]) [] = (false, some "Required field missing: a")
    ∧ (validateInputs reM0 [c3Field, reqA] [("p", "0")]).2.length = 2 := by
  refine ⟨C3_error_collection.2 reM0 reqA [reqB] [] "Required field missing: a" (by decide), ?_⟩
  rw [C3_error_collection.1 reM0 [c3Field, reqA] [("p", "0")]]
  decide

/-- Claim C4 (amended): in the control-plane validator a field whose
`visible_if` condition is unmet is skipped entirely — validating any
field list containing it gives the same result as with the field removed
— and the three `enable_ssl`/`ssl_port` scenarios hold there as claimed;
the agent validator however ignores `visible_if` altogether (erasing all
`visible_if` annotations never changes its result), so `ssl_port` remains
required there even when `enable_ssl` is "false". -/
theorem C4_visible_if :
    (∀ reMatch inputs (f : InputField) pre post, visibleIfMet inputs f = false →
      validateInputs reMatch (pre ++ f :: post) inputs = validateInputs reMatch (pre ++ post) inputs)
    ∧ (validateInputs reM0 sslFields [("enable_ssl", "false")]).1 = true
    ∧ validateInputs reM0 sslFields [("enable_ssl", "true")] = (false, ["SSL Port is required"])
    ∧ (validateInputs reM0 sslFields [("enable_ssl", "true"), ("ssl_port", "443")]).1 = true
    ∧ (∀ reMatch fields inputs,
        agentValidateInputs reMatch (fields.map (fun f => { f with visible_if := none })) inputs
          = agentValidateInputs reMatch fields inputs)
    ∧ agentValidateInputs reM0 sslFields [("enable_ssl", "true"), ("ssl_port", "443")] = (true, none) := by
  refine ⟨?_, by decide, by decide, by decide, ?_, by decide⟩
  · intro reM inputs f pre post hv
    simp only [validateInputs, collectErrors_append]
    simp [collectErrors, hv]
  · intro reM fields inputs
    induction fields with
    | nil => rfl
    | cons f rest ih =>
      simp only [List.map_cons]
      unfold agentValidateInputs
      rw [agentFieldError_visible_if]
      cases agentFieldError reM f inputs <;> simp [ih]

/-- Claim C4 (counterexample): the agent-side validator — the other half
of the "validation engine shared by both control plane and agent" — fails
the inputs `enable_ssl = "false"` with `ssl_port` missing, although the
claim says they validate successfully; the control-plane validator
accepts them. -/
theorem C4_counterexample :
    agentValidateInputs reM0 sslFields [("enable_ssl", "false")]
      = (false, some "Required field missing: ssl_port")
    ∧ (validateInputs reM0 sslFields [("enable_ssl", "false")]).1 = true := by
  decide

/-- Claim C4 (witness): the skip property applied at the concrete
`ssl_port` field under `enable_ssl = "false"`. -/
theorem C4_visible_if_witness :
    validateInputs reM0 ([sslBoolField] ++ sslPortField :: []) [("enable_ssl", "false")]
      = validateInputs reM0 ([sslBoolField] ++ []) [("enable_ssl", "false")] :=
  C4_visible_if.1 reM0 [("enable_ssl", "false")] sslPortField [sslBoolField] [] (by decide)

/-- Claim C5: a job failing signature verification, whitelist lookup, or
input validation yields a terminal result record with status "failed",
a descriptive non-null error, the sandbox never invoked and no process
events — stated as full-record equalities for the three rejection
paths. -/
theorem C5_fail_fast :
    ∀ secret reMatch baseEnv startedAt completedAt (w : JobWorld) (job : Job),
      (validateSignature secret job = false →
        executeJob secret reMatch baseEnv startedAt completedAt w job
          = ({ job_id := job.job_id, status := "failed", exit_code := 1, output := "",
               started_at := startedAt, completed_at := some completedAt,
               error := some "Invalid signature" }, false, []))
      ∧ (validateSignature secret job = true → w.whitelisted = false →
        executeJob secret reMatch baseEnv startedAt completedAt w job
          = ({ job_id := job.job_id, status := "failed", exit_code := 1, output := "",
               started_at := startedAt, completed_at := some completedAt,
               error := some ("Installer not whitelisted: " ++ job.app_id) }, false, []))
      ∧ (∀ m e, validateSignature secret job = true → w.whitelisted = true →
          w.manifestResult = Except.ok m →
          agentValidateInputs reMatch m.inputs job.inputs = (false, e) →
          executeJob secret reMatch baseEnv startedAt completedAt w job
            = ({ job_id := job.job_id, status := "failed", exit_code := 1, output := "",
                 started_at := startedAt, completed_at := some completedAt,
                 error := some ("Input validation failed: " ++ e.getD "None") }, false, [])) := by
  intro secret reM baseEnv s c w job
  refine ⟨fun h1 => ?_, fun h1 h2 => ?_, fun m e h1 h2 h3 h4 => ?_⟩
  · simp [executeJob, h1]
  · simp [executeJob, h1, h2]
  · simp [executeJob, h1, h2, h3, h4]

set_option maxHeartbeats 8000000 in
set_option maxRecDepth 10000 in
/-- Claim C5 (witness): the three rejection paths at concrete jobs — a
forged signature, a non-whitelisted installer, and a missing required
input. -/
theorem C5_fail_fast_witness :
    executeJob "test-secret" reM0 emptyEnv "t0" "t1" okWorld { cJobSigned with signature := "forged" }
      = ({ job_id := "j1", status := "failed", exit_code := 1, output := "",
           started_at := "t0", completed_at := some "t1",
           error := some "Invalid signature" }, false, [])
    ∧ executeJob "test-secret" reM0 emptyEnv "t0" "t1" notWhitelistedWorld cJobSigned
      = ({ job_id := "j1", status := "failed", exit_code := 1, output := "",
           started_at := "t0", completed_at := some "t1",
           error := some ("Installer not whitelisted: " ++ cJobSigned.app_id) }, false, [])
    ∧ executeJob "test-secret" reM0 emptyEnv "t0" "t1" missingInputWorld cJobSigned
      = ({ job_id := "j1", status := "failed", exit_code := 1, output := "",
           started_at := "t0", completed_at := some "t1",
           error := some ("Input validation failed: "
             ++ (some "Required field missing: a").getD "None") }, false, []) := by
  refine ⟨?_, ?_, ?_⟩
  · exact (C5_fail_fast "test-secret" reM0 emptyEnv "t0" "t1" okWorld
      { cJobSigned with signature := "forged" }).1 (by decide)
  · exact (C5_fail_fast "test-secret" reM0 emptyEnv "t0" "t1" notWhitelistedWorld cJobSigned).2.1
      (by decide) rfl
  · exact (C5_fail_fast "test-secret" reM0 emptyEnv "t0" "t1" missingInputWorld cJobSigned).2.2
      { inputs := [reqA] } (some "Required field missing: a") (by decide) rfl rfl (by decide)

/-- Claim C6 (amended): the environment handed to the installer binds
every supplied input name upper-cased to its value (last binding wins on
collisions) plus the two fixed metadata variables `PROVISIONING_JOB` and
`DEBIAN_FRONTEND`; every other name resolves exactly as in the agent
process's own inherited environment (`os.environ.copy()`), whose
variables therefore also reach the installer — not only the supplied
inputs and the fixed metadata set, as claimed. -/
theorem C6_environment :
    ∀ (baseEnv : Env) (inputs : List (String × String)) (manifest : List InputField),
      prepareEnvironment baseEnv inputs manifest "PROVISIONING_JOB" = some "true"
      ∧ prepareEnvironment baseEnv inputs manifest "DEBIAN_FRONTEND" = some "noninteractive"
      ∧ (∀ name, name ≠ "PROVISIONING_JOB" → name ≠ "DEBIAN_FRONTEND" →
          (∀ kv ∈ inputs, upperStr kv.1 ≠ name) →
          prepareEnvironment baseEnv inputs manifest name = baseEnv name)
      ∧ (∀ pre k v post, inputs = pre ++ (k, v) :: post →
          upperStr k ≠ "PROVISIONING_JOB" → upperStr k ≠ "DEBIAN_FRONTEND" →
          (∀ kv ∈ post, upperStr kv.1 ≠ upperStr k) →
          prepareEnvironment baseEnv inputs manifest (upperStr k) = some v) := by
  intro baseEnv inputs manifest
  refine ⟨?_, ?_, ?_, ?_⟩
  · show envSet (envSet (inputs.foldl (fun e kv => envSet e (upperStr kv.1) kv.2) baseEnv)
      "PROVISIONING_JOB" "true") "DEBIAN_FRONTEND" "noninteractive" "PROVISIONING_JOB" = some "true"
    rw [envSet_ne _ _ _ _ (by decide), envSet_self]
  · show envSet (envSet (inputs.foldl (fun e kv => envSet e (upperStr kv.1) kv.2) baseEnv)
      "PROVISIONING_JOB" "true") "DEBIAN_FRONTEND" "noninteractive" "DEBIAN_FRONTEND"
      = some "noninteractive"
    rw [envSet_self]
  · intro name hn1 hn2 hfree
    show envSet (envSet (inputs.foldl (fun e kv => envSet e (upperStr kv.1) kv.2) baseEnv)
      "PROVISIONING_JOB" "true") "DEBIAN_FRONTEND" "noninteractive" name = baseEnv name
    rw [envSet_ne _ _ _ _ hn2, envSet_ne _ _ _ _ hn1]
    exact foldlEnv_notin inputs baseEnv name hfree
  · intro pre k v post heq hk1 hk2 hfree
    subst heq
    show envSet (envSet ((pre ++ (k, v) :: post).foldl
        (fun e kv => envSet e (upperStr kv.1) kv.2) baseEnv)
      "PROVISIONING_JOB" "true") "DEBIAN_FRONTEND" "noninteractive" (upperStr k) = some v
    rw [envSet_ne _ _ _ _ hk2, envSet_ne _ _ _ _ hk1, List.foldl_append, List.foldl_cons,
      foldlEnv_notin post _ (upperStr k) hfree, envSet_self]

/-- Claim C6 (counterexample): with no inputs supplied at all, a variable
inherited from the agent process environment (here `SECRET_KEY`) is
present in the installer's environment, though it is neither a supplied
input nor one of the two metadata variables — refuting "no other variable
names reach the environment". -/
theorem C6_counterexample :
    prepareEnvironment envWithSecret [] [] "SECRET_KEY" = some "hunter2"
    ∧ "SECRET_KEY" ≠ "PROVISIONING_JOB" ∧ "SECRET_KEY" ≠ "DEBIAN_FRONTEND" := by
  decide

/-- Claim C6 (witness): the amended contract at a concrete call — the
input `ssl_port` appears upper-cased, the metadata variable is set, and
the inherited variable passes through. -/
theorem C6_environment_witness :
    prepareEnvironment envWithSecret [("ssl_port", "443")] [] (upperStr "ssl_port") = some "443"
    ∧ prepareEnvironment envWithSecret [("ssl_port", "443")] [] "PROVISIONING_JOB" = some "true"
    ∧ prepareEnvironment envWithSecret [("ssl_port", "443")] [] "SECRET_KEY"
        = envWithSecret "SECRET_KEY" := by
  refine ⟨?_, (C6_environment envWithSecret [("ssl_port", "443")] []).1, ?_⟩
  · exact (C6_environment envWithSecret [("ssl_port", "443")] []).2.2.2
      [] "ssl_port" "443" [] rfl (by decide) (by decide) (by simp)
  · exact (C6_environment envWithSecret [("ssl_port", "443")] []).2.2.1
      "SECRET_KEY" (by decide) (by decide) (by decide)

/-- Claim C7 (amended): a supplied port value must parse as an integer in
[1, 65535] — unconditionally so in the agent validator, and for every
non-empty value in the control-plane validator (an empty value bypasses
the check there under the empty-value shortcut); concretely "80" is
accepted and "99999" and "not-a-port" are rejected by both validators. -/
theorem C7_port_bounds :
    (∀ reMatch v, v ≠ "" →
      ((validateField reMatch portField v).1 = true
        ↔ ∃ n : Int, parseInt v = some n ∧ 1 ≤ n ∧ n ≤ 65535))
    ∧ (∀ reMatch v,
      ((agentValidateInputs reMatch [portField] [("p", v)]).1 = true
        ↔ ∃ n : Int, parseInt v = some n ∧ 1 ≤ n ∧ n ≤ 65535))
    ∧ (validateField reM0 portField "80").1 = true
    ∧ (agentValidateInputs reM0 [portField] [("p", "80")]).1 = true
    ∧ (validateField reM0 portField "99999").1 = false
    ∧ (agentValidateInputs reM0 [portField] [("p", "99999")]).1 = false
    ∧ (validateField reM0 portField "not-a-port").1 = false
    ∧ (agentValidateInputs reM0 [portField] [("p", "not-a-port")]).1 = false := by
  refine ⟨?_, ?_, by decide, by decide, by decide, by decide, by decide, by decide⟩
  · intro reM v hv
    rw [validateField_true_iff]
    unfold fieldError
    rw [if_neg hv]
    cases hp : parseInt v with
    | none =>
      simp [fieldChecks, typeCheck, patternCheck, minLengthCheck, maxLengthCheck,
        minValueCheck, maxValueCheck, allowedValuesCheck, firstSome, portField, hp]
    | some n =>
      by_cases hr : 1 ≤ n ∧ n ≤ 65535 <;>
        simp [fieldChecks, typeCheck, patternCheck, minLengthCheck, maxLengthCheck,
          minValueCheck, maxValueCheck, allowedValuesCheck, firstSome, portField, hp, hr]
  · intro reM v
    have hl : List.lookup "p" [("p", v)] = some v := by simp [List.lookup]
    cases hp : parseInt v with
    | none =>
      simp [agentValidateInputs, agentFieldError, agentTypeCheck, agentPatternCheck,
        agentMinLengthCheck, agentMaxLengthCheck, firstSome, portField, hl, hp]
    | some n =>
      by_cases hr : 1 ≤ n ∧ n ≤ 65535 <;>
        simp [agentValidateInputs, agentFieldError, agentTypeCheck, agentPatternCheck,
          agentMinLengthCheck, agentMaxLengthCheck, firstSome, portField, hl, hp, hr]

/-- Claim C7 (counterexample): the control-plane validator accepts the
empty string for an optional port field although the empty string does
not parse as an integer — the universal "must parse and lie in range"
fails there. -/
theorem C7_counterexample :
    (validateField reM0 { portField with required := false } "").1 = true
    ∧ parseInt "" = none := by
  decide

/-- Claim C7 (witness): the characterization applied at the value "80". -/
theorem C7_port_bounds_witness :
    (validateField reM0 portField "80").1 = true
    ∧ (agentValidateInputs reM0 [portField] [("p", "80")]).1 = true := by
  constructor
  · exact (C7_port_bounds.1 reM0 "80" (by decide)).mpr ⟨80, by decide, by decide, by decide⟩
  · exact (C7_port_bounds.2.1 reM0 "80").mpr ⟨80, by decide, by decide, by decide⟩

/-- Claim C8: when a supplied value does not parse as a float, the
min_value/max_value checks contribute no error — the field validates
exactly as if it declared no numeric bounds, so non-numeric values skip
them silently while every other declared constraint still applies. -/
theorem C8_numeric_bound_skip :
    ∀ reMatch (f : InputField) v, parseFloat v = none →
      validateField reMatch f v
        = validateField reMatch
            { f with validation := { f.validation with min_value := none, max_value := none } } v := by
  intro reM f v h
  unfold validateField
  have hf : fieldError reM f v
      = fieldError reM
          { f with validation := { f.validation with min_value := none, max_value := none } } v := by
    unfold fieldError fieldChecks
    rw [minValueCheck_skip f v h, maxValueCheck_skip f v h]
    rfl
  rw [hf]

/-- Claim C8 (witness): at a string field with a numeric lower bound and
an allowed-values set, the non-numeric value "xyz" skips the bound
silently and the allowed-values constraint still fires. -/
theorem C8_numeric_bound_skip_witness :
    validateField reM0 f8 "xyz"
      = validateField reM0
          { f8 with validation := { f8.validation with min_value := none, max_value := none } } "xyz"
    ∧ validateField reM0 f8 "xyz" = (false, some "M must be one of: abc") :=
  ⟨C8_numeric_bound_skip reM0 f8 "xyz" (by decide), by decide⟩

/-- Claim C9: `execute_job` is total and shape-preserving — for every
world behaviour (manifest load raising, missing script, launch raising,
timeout, any exit code) it returns a result whose job_id equals the input
job's, whose status is "success" or "failed", and whose completed_at is
set. -/
theorem C9_execute_job_total :
    ∀ secret reMatch baseEnv startedAt completedAt (w : JobWorld) (job : Job),
      (executeJob secret reMatch baseEnv startedAt completedAt w job).1.job_id = job.job_id
      ∧ ((executeJob secret reMatch baseEnv startedAt completedAt w job).1.status = "success"
         ∨ (executeJob secret reMatch baseEnv startedAt completedAt w job).1.status = "failed")
      ∧ (executeJob secret reMatch baseEnv startedAt completedAt w job).1.completed_at
          = some completedAt := by
  intro secret reM baseEnv s c w job
  by_cases h1 : validateSignature secret job
  · by_cases h2 : w.whitelisted
    · cases h3 : w.manifestResult with
      | error e => simp [executeJob, h1, h2, h3]
      | ok m =>
        rcases h4 : agentValidateInputs reM m.inputs job.inputs with ⟨b, e⟩
        cases b
        · simp [executeJob, h1, h2, h3, h4]
        · by_cases h5 : w.script.scriptExists
          · cases h6 : w.script.outcome with
            | exits code log =>
              by_cases hc : code = 0 <;>
                simp [executeJob, executeScript, h1, h2, h3, h4, h5, h6, hc]
            | timesOut => simp [executeJob, executeScript, h1, h2, h3, h4, h5, h6]
            | raises msg => simp [executeJob, executeScript, h1, h2, h3, h4, h5, h6]
          · simp [executeJob, executeScript, h1, h2, h3, h4, h5]
    · simp [executeJob, h1, h2]
  · simp [executeJob, h1]

/-- Claim C10: in the control-plane validator an optional field with an
empty value — supplied empty or omitted — validates successfully with
every subsequent check bypassed, whatever its type and validation rules;
an omitted optional field contributes nothing to `validate_inputs`. -/
theorem C10_empty_optional :
    (∀ reMatch (f : InputField), f.required = false → validateField reMatch f "" = (true, none))
    ∧ (∀ reMatch (f : InputField) fields inputs, f.required = false →
        inputs.lookup f.name = none →
        validateInputs reMatch (f :: fields) inputs = validateInputs reMatch fields inputs) := by
  constructor
  · intro reM f h
    unfold validateField fieldError
    simp [h]
  · intro reM f fields inputs h hl
    simp only [validateInputs, collectErrors]
    cases hv : visibleIfMet inputs f
    · simp [hv]
    · simp [hv, hl, fieldError, h]

/-- Claim C10 (witness): an optional port field with a minimum-length rule
accepts the empty value, and omitting it leaves validation unchanged. -/
theorem C10_empty_optional_witness :
    validateField reM0 f10 "" = (true, none)
    ∧ validateInputs reM0 (f10 :: []) [] = validateInputs reM0 [] [] :=
  ⟨C10_empty_optional.1 reM0 f10 rfl, C10_empty_optional.2 reM0 f10 [] [] rfl rfl⟩

end WebPanel
